import Mathlib

/-!
Verification of the video-mapper service (`video-mapper.go`).

The Go source is shallowly embedded below.  Go strings are modelled as
`List Char`; the untyped JSON values a `map[string]interface{}` can hold are
modelled by the inductive `JsonVal`; a Go `map[string]T` is modelled as an
association list looked up with `lookupKey` (missing key gives `none`,
matching the `nil` interface value a Go map read yields for a missing key).
A Go type assertion `x.(string)` panics when `x` is not a string (including
the `nil` obtained for an absent key); panics are modelled explicitly by the
`MapResult.panicked` constructor.  `json.Marshal` of the two concrete structs
is embedded by `marshalPayload` / `marshalEvent`, reproducing Go's field
order, string quoting and escaping (including the default HTML escaping of
the characters `<`, `>`, `&` and the ` `/` ` escapes); on these
structs, whose fields are strings and slices of string structs, `Marshal`
cannot fail, so the embedded marshallers are total.  JSON numbers are
abstracted to `Int` (the mapper never reads a numeric value, it only
distinguishes strings from non-strings).
-/

namespace VideoMapper

/-- Go strings are modelled as lists of characters. -/
abbrev Str := List Char

/-- Values of Go's `interface{}` as produced by `json.Unmarshal`. -/
inductive JsonVal where
  | str (s : Str)
  | num (n : Int)
  | boolv (b : Bool)
  | null
  | arr (elems : List JsonVal)
  | obj (fields : List (Str × JsonVal))

/-- The decoded body of a native Brightcove video: Go's
`map[string]interface{}`, modelled as an association list. -/
abbrev RawRecord := List (Str × JsonVal)

/-- Reading a Go map: `some v` when the key is present, `none` (Go: the
`nil` interface value) when it is absent. -/
def lookupKey : RawRecord → Str → Option JsonVal
  | [], _ => none
  | (k, v) :: rest, key => if k = key then some v else lookupKey rest key

/-- Message or request headers: Go's `map[string]string`. -/
abbrev Headers := List (Str × Str)

/-- Reading a Go `map[string]string`: a missing key yields the zero value
`""`, exactly as `m.Headers[k]` and `r.Header.Get(k)` do. -/
def getHeader : Headers → Str → Str
  | [], _ => []
  | (k, v) :: rest, key => if k = key then v else getHeader rest key

/-- Constant `videoContentUriBase` of `video-mapper.go`. -/
def videoContentUriBase : Str :=
  "http://video-mapper-iw-uk-p.svc.ft.com/video/model/".toList

/-- Constant `brigthcoveAuthority` of `video-mapper.go` (sic). -/
def brigthcoveAuthority : Str := "http://api.ft.com/system/BRIGHTCOVE".toList

/-- Constant `viodeMediaTypeBase` of `video-mapper.go` (sic). -/
def viodeMediaTypeBase : Str := "video/".toList

/-- Constant `brightcoveOrigin` of `video-mapper.go`. -/
def brightcoveOrigin : Str := "http://cmdb.ft.com/systems/brightcove".toList

/-- Go struct `identifier`. -/
structure identifier where
  Authority : Str
  IdentifierValue : Str
  deriving DecidableEq

/-- Go struct `payload`. -/
structure payload where
  UUID : Str
  Identifiers : List identifier
  PublishedDate : Str
  MediaType : Str
  PublishReference : Str
  LastModified : Str
  deriving DecidableEq

/-- Go struct `publicationEvent`; its `Payload` field holds the already
serialized inner payload as an opaque string. -/
structure publicationEvent where
  ContentUri : Str
  Payload : Str
  LastModified : Str
  deriving DecidableEq

/-- Lowercase hexadecimal digit, as used by Go's JSON encoder. -/
def hexDigitChar (n : Nat) : Char :=
  if n < 10 then Char.ofNat (48 + n) else Char.ofNat (87 + n)

/-- How Go's `encoding/json` encoder (with its default HTML escaping)
renders one character inside a JSON string literal. -/
def escapeChar (c : Char) : Str :=
  if c = '"' then ['\\', '"']
  else if c = '\\' then ['\\', '\\']
  else if c = '\n' then ['\\', 'n']
  else if c = '\r' then ['\\', 'r']
  else if c = '\t' then ['\\', 't']
  else if c.toNat < 32 ∨ c = '<' ∨ c = '>' ∨ c = '&' then
    ['\\', 'u', '0', '0', hexDigitChar (c.toNat / 16), hexDigitChar (c.toNat % 16)]
  else if c.toNat = 8232 ∨ c.toNat = 8233 then
    ['\\', 'u', '2', '0', '2', hexDigitChar (c.toNat % 16)]
  else [c]

/-- Body of a JSON string literal: every character escaped as Go does. -/
def escBody : Str → Str
  | [] => []
  | c :: rest => escapeChar c ++ escBody rest

/-- A complete JSON string literal, quotes included. -/
def quoteStr (s : Str) : Str := '"' :: (escBody s ++ ['"'])

/-- Literal chunk of the marshalled `payload`. -/
def litUuid : Str := "\x7b\"uuid\":".toList

/-- Literal chunk of the marshalled `payload`. -/
def litIdentifiers : Str := ",\"identifiers\":".toList

/-- Literal chunk of a marshalled `identifier`. -/
def litAuthority : Str := "\x7b\"authority\":".toList

/-- Literal chunk of a marshalled `identifier`. -/
def litIdentifierValue : Str := ",\"identifierValue\":".toList

/-- Literal chunk of the marshalled `payload`. -/
def litPublishedDate : Str := ",\"publishedDate\":".toList

/-- Literal chunk of the marshalled `payload`. -/
def litMediaType : Str := ",\"mediaType\":".toList

/-- Literal chunk of the marshalled `payload`. -/
def litPublishReference : Str := ",\"publishReference\":".toList

/-- Literal chunk of the marshalled `payload` and `publicationEvent`. -/
def litLastModified : Str := ",\"lastModified\":".toList

/-- Literal chunk of the marshalled `publicationEvent`. -/
def litContentUri : Str := "\x7b\"contentUri\":".toList

/-- Literal chunk of the marshalled `publicationEvent`. -/
def litPayloadKey : Str := ",\"payload\":".toList

/-- Go `json.Marshal` of one `identifier` value. -/
def marshalIdentifier (i : identifier) : Str :=
  litAuthority ++ quoteStr i.Authority ++ litIdentifierValue ++
    quoteStr i.IdentifierValue ++ ['\x7d']

/-- Comma-joined JSON array elements, as Go renders a slice. -/
def commaJoin : List Str → Str
  | [] => []
  | [x] => x
  | x :: xs => x ++ ',' :: commaJoin xs

/-- Go `json.Marshal` of a (non-nil) `[]identifier` slice. -/
def marshalIdentifierList (is : List identifier) : Str :=
  '[' :: (commaJoin (is.map marshalIdentifier) ++ [']'])

/-- Go `json.Marshal` of a `payload` value: fields in declaration order,
each rendered as a quoted, escaped JSON string. -/
def marshalPayload (p : payload) : Str :=
  litUuid ++ quoteStr p.UUID ++
  litIdentifiers ++ marshalIdentifierList p.Identifiers ++
  litPublishedDate ++ quoteStr p.PublishedDate ++
  litMediaType ++ quoteStr p.MediaType ++
  litPublishReference ++ quoteStr p.PublishReference ++
  litLastModified ++ quoteStr p.LastModified ++ ['\x7d']

/-- Go `json.Marshal` of a `publicationEvent` value. -/
def marshalEvent (e : publicationEvent) : Str :=
  litContentUri ++ quoteStr e.ContentUri ++
  litPayloadKey ++ quoteStr e.Payload ++
  litLastModified ++ quoteStr e.LastModified ++ ['\x7d']

/-- Helper of `goFilepathExt`: scans the reversed path, accumulating the
characters already passed; stops at a path separator, returns the suffix
from the last dot when one is found first. -/
def goExtAux (acc : Str) : Str → Str
  | [] => []
  | c :: rest =>
    if c = '/' then []
    else if c = '.' then '.' :: acc
    else goExtAux (c :: acc) rest

/-- Go's `filepath.Ext` on a Unix build: the suffix of `path` starting at
the final dot of the final path element, `""` when there is none. -/
def goFilepathExt (path : Str) : Str := goExtAux [] path.reverse

/-- Go's `strings.TrimPrefix(s, ".")`: drops one leading dot if present. -/
def goTrimLeadingDot : Str → Str
  | '.' :: rest => rest
  | s => s

/-- Outcome of running a fallible piece of Go code: a runtime panic, an
`error` return, or a successful value. -/
inductive MapResult (α : Type) where
  | panicked
  | errorMsg (msg : Str)
  | ok (val : α)
  deriving DecidableEq

/-- Error text for a rejected empty `uuid`. -/
def uuidNullMsg : Str :=
  "uuid field of native brightcove video JSON is null. Skipping message.".toList

/-- Error text for a rejected empty `id`. -/
def idNullMsg : Str :=
  "id field of native brightcove video JSON is null. Skipping message.".toList

/-- Error text for a rejected empty `updated_at`. -/
def updatedAtNullMsg : Str :=
  "updated_at field of native brightcove video JSON is null. Skipping message.".toList

/-- Embedding of `videoMapper.mapBrightcoveVideo` up to (but not including)
the final `json.Marshal` of the event, so that the produced
`publicationEvent` is visible to the theorems.  Each `x.(string)` type
assertion on a map value panics unless the key is present with a string
value; an empty required string is rejected with the corresponding error;
an empty `fileName` only triggers a warning log and processing continues. -/
def mapBrightcoveVideoEvent (brightcoveVideo : RawRecord)
    (publishReference lastModified : Str) : MapResult publicationEvent :=
  match lookupKey brightcoveVideo "uuid".toList with
  | some (.str uuid) =>
    if uuid = [] then .errorMsg uuidNullMsg
    else
      match lookupKey brightcoveVideo "id".toList with
      | some (.str id) =>
        if id = [] then .errorMsg idNullMsg
        else
          match lookupKey brightcoveVideo "updated_at".toList with
          | some (.str publishedDate) =>
            if publishedDate = [] then .errorMsg updatedAtNullMsg
            else
              match lookupKey brightcoveVideo "name".toList with
              | some (.str fileName) =>
                .ok
                  { ContentUri := videoContentUriBase ++ uuid
                    Payload :=
                      marshalPayload
                        { UUID := uuid
                          Identifiers :=
                            [{ Authority := brigthcoveAuthority
                               IdentifierValue := id }]
                          PublishedDate := publishedDate
                          MediaType :=
                            viodeMediaTypeBase ++
                              goTrimLeadingDot (goFilepathExt fileName)
                          PublishReference := publishReference
                          LastModified := lastModified }
                    LastModified := lastModified }
              | _ => .panicked
          | _ => .panicked
      | _ => .panicked
  | _ => .panicked

/-- Embedding of `videoMapper.mapBrightcoveVideo`: the serialized
publication event (Go returns its `json.Marshal` bytes). -/
def mapBrightcoveVideo (brightcoveVideo : RawRecord)
    (publishReference lastModified : Str) : MapResult Str :=
  match mapBrightcoveVideoEvent brightcoveVideo publishReference lastModified with
  | .ok e => .ok (marshalEvent e)
  | .errorMsg m => .errorMsg m
  | .panicked => .panicked

/-- An inbound broker message.  `Body` is the result of
`json.Unmarshal` on the raw body text: `none` models a body that does not
decode into a `map[string]interface{}`. -/
structure ConsumerMessage where
  Headers : Headers
  Body : Option RawRecord

/-- Error text for an undecodable message body. -/
def unmarshalFailMsg : Str :=
  "Video JSON from Brightcove couldn't be unmarshalled. Skipping invalid JSON.".toList

/-- Error text for a missing X-Request-Id header. -/
def noRequestIdMsg : Str :=
  "X-Request-Id not found in kafka message headers. Skipping message.".toList

/-- Error text for a missing Message-Timestamp header. -/
def noTimestampMsg : Str :=
  "Message-Timestamp not found in kafka message headers. Skipping message.".toList

/-- Embedding of `videoMapper.mapMessage`. -/
def mapMessage (m : ConsumerMessage) : MapResult Str :=
  match m.Body with
  | none => .errorMsg unmarshalFailMsg
  | some brightcoveVideo =>
    if getHeader m.Headers "X-Request-Id".toList = [] then
      .errorMsg noRequestIdMsg
    else if getHeader m.Headers "Message-Timestamp".toList = [] then
      .errorMsg noTimestampMsg
    else
      mapBrightcoveVideo brightcoveVideo
        (getHeader m.Headers "X-Request-Id".toList)
        (getHeader m.Headers "Message-Timestamp".toList)

/-- A message handed to the outbound broker producer. -/
structure OutboundMessage where
  Headers : Headers
  Body : Str
  deriving DecidableEq

/-- How `videoMapper.consume` finished on one inbound message. -/
inductive ConsumeResult where
  | droppedOrigin
  | mappingFailed (msg : Str)
  | processed (event : Str)
  | panicked
  deriving DecidableEq

/-- Embedding of `videoMapper.consume`: the outcome together with the list
of messages handed to the outbound producer.  The producer call in the
source is commented out, so every branch produces the empty list. -/
def consume (m : ConsumerMessage) : ConsumeResult × List OutboundMessage :=
  if getHeader m.Headers "Origin-System-Id".toList ≠ brightcoveOrigin then
    (.droppedOrigin, [])
  else
    match mapMessage m with
    | .errorMsg e => (.mappingFailed e, [])
    | .panicked => (.panicked, [])
    | .ok ev => (.processed ev, [])

/-- An HTTP POST /map request: the body as decoded by
`json.NewDecoder(r.Body).Decode` (`none` = decode error), and the two
header values as returned by `r.Header.Get` (`""` when absent). -/
structure HttpRequest where
  Body : Option RawRecord
  XRequestId : Str
  MessageTimestamp : Str

/-- What `videoMapper.mapHandler` does with the response writer:
`badRequest` = `WriteHeader(400)` and no body; `noWrite` = the handler
returns without writing anything (the framework then completes the
response with an empty 200); `success` = the serialized event is written
(status 200 implicit); `panicked` = a runtime panic escapes the handler. -/
inductive HandlerOutcome where
  | badRequest
  | noWrite
  | success (body : Str)
  | panicked
  deriving DecidableEq

/-- Embedding of `videoMapper.mapHandler`. -/
def mapHandler (r : HttpRequest) : HandlerOutcome :=
  match r.Body with
  | none => .badRequest
  | some brightcoveVideo =>
    if r.XRequestId = [] then .noWrite
    else if r.MessageTimestamp = [] then .noWrite
    else
      match mapBrightcoveVideo brightcoveVideo r.XRequestId r.MessageTimestamp with
      | .errorMsg _ => .badRequest
      | .panicked => .panicked
      | .ok bytes => .success bytes

/-- Value of one hexadecimal digit character, as accepted by a JSON
`\uXXXX` escape. -/
def hexVal (c : Char) : Option Nat :=
  if 48 ≤ c.toNat ∧ c.toNat ≤ 57 then some (c.toNat - 48)
  else if 97 ≤ c.toNat ∧ c.toNat ≤ 102 then some (c.toNat - 87)
  else if 65 ≤ c.toNat ∧ c.toNat ≤ 70 then some (c.toNat - 55)
  else none

/-- The character denoted by a single-character JSON escape. -/
def unescapeChar (c : Char) : Option Char :=
  if c = '"' then some '"'
  else if c = '\\' then some '\\'
  else if c = '/' then some '/'
  else if c = 'b' then some (Char.ofNat 8)
  else if c = 'f' then some (Char.ofNat 12)
  else if c = 'n' then some '\n'
  else if c = 'r' then some '\r'
  else if c = 't' then some '\t'
  else none

/-- Reads the body of a JSON string literal up to its closing quote,
undoing the escapes; returns the decoded string and the rest of the
input. -/
def unquoteBody : Str → Option (Str × Str)
  | [] => none
  | c :: rest =>
    if c = '"' then some ([], rest)
    else if c = '\\' then
      match rest with
      | [] => none
      | e :: rest2 =>
        if e = 'u' then
          match rest2 with
          | h1 :: h2 :: h3 :: h4 :: rest3 =>
            match hexVal h1, hexVal h2, hexVal h3, hexVal h4 with
            | some a, some b, some c2, some d =>
              match unquoteBody rest3 with
              | some (s, r) =>
                some (Char.ofNat (a * 4096 + b * 256 + c2 * 16 + d) :: s, r)
              | none => none
            | _, _, _, _ => none
          | _ => none
        else
          match unescapeChar e with
          | some u =>
            match unquoteBody rest2 with
            | some (s, r) => some (u :: s, r)
            | none => none
          | none => none
    else
      match unquoteBody rest with
      | some (s, r) => some (c :: s, r)
      | none => none

/-- Reads a complete JSON string literal. -/
def parseQuoted : Str → Option (Str × Str)
  | [] => none
  | c :: rest => if c = '"' then unquoteBody rest else none

/-- Consumes an expected literal chunk of input. -/
def expectLit : Str → Str → Option Str
  | [], s => some s
  | c :: l, d :: s => if c = d then expectLit l s else none
  | _, [] => none

/-- Final decoding stage: the closing brace, then end of input. -/
def decodeStage8 (u a iv pd mt pr lm : Str) (s : Str) : Option payload :=
  (expectLit ['\x7d'] s).bind fun s15 =>
  if s15 = [] then
    some
      { UUID := u
        Identifiers := [{ Authority := a, IdentifierValue := iv }]
        PublishedDate := pd
        MediaType := mt
        PublishReference := pr
        LastModified := lm }
  else none

/-- Decoding stage: the `lastModified` key and its string value. -/
def decodeStage7 (u a iv pd mt pr : Str) (s : Str) : Option payload :=
  (expectLit litLastModified s).bind fun s13 =>
  (parseQuoted s13).bind fun lm => decodeStage8 u a iv pd mt pr lm.1 lm.2

/-- Decoding stage: the `publishReference` key and its string value. -/
def decodeStage6 (u a iv pd mt : Str) (s : Str) : Option payload :=
  (expectLit litPublishReference s).bind fun s11 =>
  (parseQuoted s11).bind fun pr => decodeStage7 u a iv pd mt pr.1 pr.2

/-- Decoding stage: the `mediaType` key and its string value. -/
def decodeStage5 (u a iv pd : Str) (s : Str) : Option payload :=
  (expectLit litMediaType s).bind fun s9 =>
  (parseQuoted s9).bind fun mt => decodeStage6 u a iv pd mt.1 mt.2

/-- Decoding stage: the end of the identifier array, the `publishedDate`
key and its string value. -/
def decodeStage4 (u a iv : Str) (s : Str) : Option payload :=
  (expectLit ('\x7d' :: ']' :: litPublishedDate) s).bind fun s7 =>
  (parseQuoted s7).bind fun pd => decodeStage5 u a iv pd.1 pd.2

/-- Decoding stage: the `identifierValue` key and its string value. -/
def decodeStage3 (u a : Str) (s : Str) : Option payload :=
  (expectLit litIdentifierValue s).bind fun s5 =>
  (parseQuoted s5).bind fun iv => decodeStage4 u a iv.1 iv.2

/-- Decoding stage: the `identifiers` key, the opening of the array and of
its single identifier object, the `authority` key and its string value. -/
def decodeStage2 (u : Str) (s : Str) : Option payload :=
  (expectLit (litIdentifiers ++ '[' :: litAuthority) s).bind fun s3 =>
  (parseQuoted s3).bind fun au => decodeStage3 u au.1 au.2

/-- JSON decoding of a canonically serialized `payload`: the restriction
of Go's `json.Unmarshal` to the exact output format of `marshalPayload`
(object keys in the order written, a single identifier).  On every string
produced by `marshalPayload` from a one-identifier payload it agrees with
`json.Unmarshal` into a `payload` struct. -/
def decodeCanonicalPayload (s : Str) : Option payload :=
  (expectLit litUuid s).bind fun s1 =>
  (parseQuoted s1).bind fun uu => decodeStage2 uu.1 uu.2

/-! ### Helper lemmas about the literal-chunk reader -/

theorem expectLit_nil (s : Str) : expectLit [] s = some s := by
  cases s <;> rfl

theorem expectLit_cons (c : Char) (l s : Str) :
    expectLit (c :: l) (c :: s) = expectLit l s := by
  simp [expectLit]

theorem expectLit_append (l s : Str) : expectLit l (l ++ s) = some s := by
  induction l with
  | nil => simpa using expectLit_nil s
  | cons c l ih => simpa [expectLit] using ih

theorem expectLit_split (l₁ l₂ s : Str) :
    expectLit (l₁ ++ l₂) s = (expectLit l₁ s).bind (expectLit l₂) := by
  induction l₁ generalizing s with
  | nil => simp [expectLit_nil]
  | cons c l ih =>
    cases s with
    | nil => simp [expectLit]
    | cons d s =>
      by_cases h : c = d
      · subst h
        simpa [expectLit_cons] using ih s
      · simp [expectLit, h]

/-! ### Helper lemmas about string escaping and unescaping -/

theorem hexVal_hexDigitChar (n : Nat) (h : n < 16) :
    hexVal (hexDigitChar n) = some n := by
  interval_cases n <;> decide

theorem hexVal_zero : hexVal '0' = some 0 := by decide

theorem hexVal_two : hexVal '2' = some 2 := by decide

theorem unquoteBody_quote (rest : Str) :
    unquoteBody ('"' :: rest) = some ([], rest) := by
  rw [unquoteBody.eq_def]
  simp

theorem unquoteBody_plain (c : Char) (h1 : c ≠ '"') (h2 : c ≠ '\\')
    (rest s r : Str) (h : unquoteBody rest = some (s, r)) :
    unquoteBody (c :: rest) = some (c :: s, r) := by
  rw [unquoteBody.eq_def]
  simp [h1, h2, h]

theorem unquoteBody_escape1 (e u : Char) (he : e ≠ 'u')
    (hu : unescapeChar e = some u) (rest s r : Str)
    (h : unquoteBody rest = some (s, r)) :
    unquoteBody ('\\' :: e :: rest) = some (u :: s, r) := by
  rw [unquoteBody.eq_def]
  simp [he, hu, h]

theorem unquoteBody_escapeU (h1 h2 h3 h4 : Char) (a b c2 d : Nat)
    (ha : hexVal h1 = some a) (hb : hexVal h2 = some b)
    (hc : hexVal h3 = some c2) (hd : hexVal h4 = some d)
    (rest s r : Str) (h : unquoteBody rest = some (s, r)) :
    unquoteBody ('\\' :: 'u' :: h1 :: h2 :: h3 :: h4 :: rest) =
      some (Char.ofNat (a * 4096 + b * 256 + c2 * 16 + d) :: s, r) := by
  rw [unquoteBody.eq_def]
  simp [ha, hb, hc, hd, h]

theorem unquoteBody_escBody (s rest : Str) :
    unquoteBody (escBody s ++ '"' :: rest) = some (s, rest) := by
  induction s with
  | nil => simpa [escBody] using unquoteBody_quote rest
  | cons c s ih =>
    rw [escBody, List.append_assoc]
    by_cases h1 : c = '"'
    · subst h1
      rw [show escapeChar '"' = ['\\', '"'] from by decide]
      exact unquoteBody_escape1 '"' '"' (by decide) (by decide) _ _ _ ih
    by_cases h2 : c = '\\'
    · subst h2
      rw [show escapeChar '\\' = ['\\', '\\'] from by decide]
      exact unquoteBody_escape1 '\\' '\\' (by decide) (by decide) _ _ _ ih
    by_cases h3 : c = '\n'
    · subst h3
      rw [show escapeChar '\n' = ['\\', 'n'] from by decide]
      exact unquoteBody_escape1 'n' '\n' (by decide) (by decide) _ _ _ ih
    by_cases h4 : c = '\r'
    · subst h4
      rw [show escapeChar '\r' = ['\\', 'r'] from by decide]
      exact unquoteBody_escape1 'r' '\r' (by decide) (by decide) _ _ _ ih
    by_cases h5 : c = '\t'
    · subst h5
      rw [show escapeChar '\t' = ['\\', 't'] from by decide]
      exact unquoteBody_escape1 't' '\t' (by decide) (by decide) _ _ _ ih
    by_cases h6 : c.toNat < 32 ∨ c = '<' ∨ c = '>' ∨ c = '&'
    · have hlt : c.toNat < 63 := by
        rcases h6 with h | h | h | h
        · omega
        all_goals subst h; decide
      have hdiv : c.toNat / 16 < 16 := by omega
      have hmod : c.toNat % 16 < 16 := by omega
      rw [show escapeChar c =
            ['\\', 'u', '0', '0', hexDigitChar (c.toNat / 16),
              hexDigitChar (c.toNat % 16)] from by
          simp [escapeChar, h1, h2, h3, h4, h5, h6]]
      have hstep :=
        unquoteBody_escapeU '0' '0' (hexDigitChar (c.toNat / 16))
          (hexDigitChar (c.toNat % 16)) 0 0 (c.toNat / 16) (c.toNat % 16)
          hexVal_zero hexVal_zero (hexVal_hexDigitChar _ hdiv)
          (hexVal_hexDigitChar _ hmod) _ _ _ ih
      rw [show 0 * 4096 + 0 * 256 + c.toNat / 16 * 16 + c.toNat % 16 = c.toNat
            from by omega, Char.ofNat_toNat] at hstep
      exact hstep
    by_cases h7 : c.toNat = 8232 ∨ c.toNat = 8233
    · have hmod : c.toNat % 16 < 16 := by omega
      rw [show escapeChar c =
            ['\\', 'u', '2', '0', '2', hexDigitChar (c.toNat % 16)] from by
          simp [escapeChar, h1, h2, h3, h4, h5, h6, h7]]
      have hstep :=
        unquoteBody_escapeU '2' '0' '2' (hexDigitChar (c.toNat % 16)) 2 0 2
          (c.toNat % 16) hexVal_two hexVal_zero hexVal_two
          (hexVal_hexDigitChar _ hmod) _ _ _ ih
      rw [show 2 * 4096 + 0 * 256 + 2 * 16 + c.toNat % 16 = c.toNat from by
            omega, Char.ofNat_toNat] at hstep
      exact hstep
    · rw [show escapeChar c = [c] from by
          simp [escapeChar, h1, h2, h3, h4, h5, h6, h7]]
      exact unquoteBody_plain c h1 h2 _ _ _ ih

theorem parseQuoted_quoteStr (s rest : Str) :
    parseQuoted (quoteStr s ++ rest) = some (s, rest) := by
  have : quoteStr s ++ rest = '"' :: (escBody s ++ '"' :: rest) := by
    simp [quoteStr]
  rw [this, parseQuoted]
  simpa using unquoteBody_escBody s rest

/-! ### The canonical decoder inverts the marshaller -/

theorem marshalPayload_single (u a iv pd mt pr lm : Str) :
    marshalPayload
        { UUID := u, Identifiers := [{ Authority := a, IdentifierValue := iv }],
          PublishedDate := pd, MediaType := mt, PublishReference := pr,
          LastModified := lm } =
      litUuid ++ (quoteStr u ++ (litIdentifiers ++ ('[' :: (litAuthority ++
        (quoteStr a ++ (litIdentifierValue ++ (quoteStr iv ++ ('\x7d' :: ']' ::
        (litPublishedDate ++ (quoteStr pd ++ (litMediaType ++ (quoteStr mt ++
        (litPublishReference ++ (quoteStr pr ++ (litLastModified ++
        (quoteStr lm ++ ['\x7d'])))))))))))))))) := by
  simp [marshalPayload, marshalIdentifierList, marshalIdentifier, commaJoin]

theorem expectLit_chunkIdentifiers (R : Str) :
    expectLit (litIdentifiers ++ '[' :: litAuthority)
      (litIdentifiers ++ '[' :: (litAuthority ++ R)) = some R := by
  rw [show litIdentifiers ++ '[' :: (litAuthority ++ R) =
        (litIdentifiers ++ '[' :: litAuthority) ++ R from by simp]
  exact expectLit_append _ _

theorem expectLit_chunkPublishedDate (R : Str) :
    expectLit ('\x7d' :: ']' :: litPublishedDate)
      ('\x7d' :: ']' :: (litPublishedDate ++ R)) = some R := by
  rw [expectLit_cons, expectLit_cons]
  exact expectLit_append _ _

theorem expectLit_closing : expectLit ['\x7d'] ['\x7d'] = some [] := by decide

theorem decodeStage2_step (u a R : Str) :
    decodeStage2 u (litIdentifiers ++ '[' :: (litAuthority ++ (quoteStr a ++ R))) =
      decodeStage3 u a R := by
  unfold decodeStage2
  rw [expectLit_chunkIdentifiers, Option.some_bind, parseQuoted_quoteStr,
    Option.some_bind]

theorem decodeStage3_step (u a iv R : Str) :
    decodeStage3 u a (litIdentifierValue ++ (quoteStr iv ++ R)) =
      decodeStage4 u a iv R := by
  unfold decodeStage3
  rw [expectLit_append, Option.some_bind, parseQuoted_quoteStr,
    Option.some_bind]

theorem decodeStage4_step (u a iv pd R : Str) :
    decodeStage4 u a iv ('\x7d' :: ']' :: (litPublishedDate ++ (quoteStr pd ++ R))) =
      decodeStage5 u a iv pd R := by
  unfold decodeStage4
  rw [expectLit_chunkPublishedDate, Option.some_bind, parseQuoted_quoteStr,
    Option.some_bind]

theorem decodeStage5_step (u a iv pd mt R : Str) :
    decodeStage5 u a iv pd (litMediaType ++ (quoteStr mt ++ R)) =
      decodeStage6 u a iv pd mt R := by
  unfold decodeStage5
  rw [expectLit_append, Option.some_bind, parseQuoted_quoteStr,
    Option.some_bind]

theorem decodeStage6_step (u a iv pd mt pr R : Str) :
    decodeStage6 u a iv pd mt (litPublishReference ++ (quoteStr pr ++ R)) =
      decodeStage7 u a iv pd mt pr R := by
  unfold decodeStage6
  rw [expectLit_append, Option.some_bind, parseQuoted_quoteStr,
    Option.some_bind]

theorem decodeStage7_step (u a iv pd mt pr lm R : Str) :
    decodeStage7 u a iv pd mt pr (litLastModified ++ (quoteStr lm ++ R)) =
      decodeStage8 u a iv pd mt pr lm R := by
  unfold decodeStage7
  rw [expectLit_append, Option.some_bind, parseQuoted_quoteStr,
    Option.some_bind]

theorem decodeStage8_step (u a iv pd mt pr lm : Str) :
    decodeStage8 u a iv pd mt pr lm ['\x7d'] =
      some
        { UUID := u, Identifiers := [{ Authority := a, IdentifierValue := iv }],
          PublishedDate := pd, MediaType := mt, PublishReference := pr,
          LastModified := lm } := by
  unfold decodeStage8
  rw [expectLit_closing, Option.some_bind, if_pos rfl]

theorem decodeCanonicalPayload_marshalPayload (u a iv pd mt pr lm : Str) :
    decodeCanonicalPayload
        (marshalPayload
          { UUID := u, Identifiers := [{ Authority := a, IdentifierValue := iv }],
            PublishedDate := pd, MediaType := mt, PublishReference := pr,
            LastModified := lm }) =
      some
        { UUID := u, Identifiers := [{ Authority := a, IdentifierValue := iv }],
          PublishedDate := pd, MediaType := mt, PublishReference := pr,
          LastModified := lm } := by
  rw [marshalPayload_single]
  unfold decodeCanonicalPayload
  rw [expectLit_append, Option.some_bind, parseQuoted_quoteStr,
    Option.some_bind]
  rw [show ((u, litIdentifiers ++ '[' :: (litAuthority ++ (quoteStr a ++
        (litIdentifierValue ++ (quoteStr iv ++ ('\x7d' :: ']' ::
        (litPublishedDate ++ (quoteStr pd ++ (litMediaType ++ (quoteStr mt ++
        (litPublishReference ++ (quoteStr pr ++ (litLastModified ++
        (quoteStr lm ++ ['\x7d'])))))))))))))).1 : Str) = u from rfl]
  rw [decodeStage2_step, decodeStage3_step, decodeStage4_step,
    decodeStage5_step, decodeStage6_step, decodeStage7_step,
    decodeStage8_step]

/-! ### File-extension extraction -/

theorem goExtAux_no_dot_no_sep (re rpre acc : Str) (hdot : '.' ∉ re)
    (hsep : '/' ∉ re) :
    goExtAux acc (re ++ '.' :: rpre) = '.' :: (re.reverse ++ acc) := by
  induction re generalizing acc with
  | nil => simp [goExtAux]
  | cons c re ih =>
    have hc1 : c ≠ '/' := fun h => hsep (h ▸ List.mem_cons_self c re)
    have hc2 : c ≠ '.' := fun h => hdot (h ▸ List.mem_cons_self c re)
    have hre1 : '.' ∉ re := fun h => hdot (List.mem_cons_of_mem c h)
    have hre2 : '/' ∉ re := fun h => hsep (List.mem_cons_of_mem c h)
    simp only [List.cons_append, goExtAux, if_neg hc1, if_neg hc2,
      List.append_eq]
    rw [ih (c :: acc) hre1 hre2]
    simp

theorem goFilepathExt_of_extension (pre ext : Str) (hdot : '.' ∉ ext)
    (hsep : '/' ∉ ext) :
    goFilepathExt (pre ++ '.' :: ext) = '.' :: ext := by
  unfold goFilepathExt
  rw [List.reverse_append, List.reverse_cons,
    show (ext.reverse ++ ['.']) ++ pre.reverse =
      ext.reverse ++ '.' :: pre.reverse from by simp]
  rw [goExtAux_no_dot_no_sep ext.reverse pre.reverse []
    (by simpa using hdot) (by simpa using hsep)]
  simp

theorem goTrimLeadingDot_dot (s : Str) : goTrimLeadingDot ('.' :: s) = s := rfl

/-! ### Success and inversion of the mapper -/

theorem mapBrightcoveVideoEvent_ok (record : RawRecord)
    (publishReference lastModified uuid id publishedDate fileName : Str)
    (hu : lookupKey record "uuid".toList = some (.str uuid)) (hu0 : uuid ≠ [])
    (hi : lookupKey record "id".toList = some (.str id)) (hi0 : id ≠ [])
    (hd : lookupKey record "updated_at".toList = some (.str publishedDate))
    (hd0 : publishedDate ≠ [])
    (hn : lookupKey record "name".toList = some (.str fileName)) :
    mapBrightcoveVideoEvent record publishReference lastModified =
      .ok
        { ContentUri := videoContentUriBase ++ uuid
          Payload :=
            marshalPayload
              { UUID := uuid
                Identifiers :=
                  [{ Authority := brigthcoveAuthority, IdentifierValue := id }]
                PublishedDate := publishedDate
                MediaType :=
                  viodeMediaTypeBase ++ goTrimLeadingDot (goFilepathExt fileName)
                PublishReference := publishReference
                LastModified := lastModified }
          LastModified := lastModified } := by
  unfold mapBrightcoveVideoEvent
  rw [hu, hi, hd, hn]
  simp [hu0, hi0, hd0]

theorem mapBrightcoveVideoEvent_ok_inv (record : RawRecord)
    (publishReference lastModified : Str) (ev : publicationEvent)
    (h : mapBrightcoveVideoEvent record publishReference lastModified = .ok ev) :
    ∃ uuid id publishedDate fileName : Str,
      lookupKey record "uuid".toList = some (.str uuid) ∧
      lookupKey record "id".toList = some (.str id) ∧
      lookupKey record "updated_at".toList = some (.str publishedDate) ∧
      lookupKey record "name".toList = some (.str fileName) ∧
      ev =
        { ContentUri := videoContentUriBase ++ uuid
          Payload :=
            marshalPayload
              { UUID := uuid
                Identifiers :=
                  [{ Authority := brigthcoveAuthority, IdentifierValue := id }]
                PublishedDate := publishedDate
                MediaType :=
                  viodeMediaTypeBase ++ goTrimLeadingDot (goFilepathExt fileName)
                PublishReference := publishReference
                LastModified := lastModified }
          LastModified := lastModified } := by
  unfold mapBrightcoveVideoEvent at h
  split at h
  case _ uuid hu =>
    split at h
    · exact absurd h (by simp)
    case _ hu0 =>
      split at h
      case _ id hi =>
        split at h
        · exact absurd h (by simp)
        case _ hi0 =>
          split at h
          case _ publishedDate hd =>
            split at h
            · exact absurd h (by simp)
            case _ hd0 =>
              split at h
              case _ fileName hn =>
                exact ⟨uuid, id, publishedDate, fileName, hu, hi, hd, hn,
                  by cases h; rfl⟩
              case _ =>
                exact absurd h (by simp)
          case _ =>
            exact absurd h (by simp)
      case _ =>
        exact absurd h (by simp)
  case _ =>
    exact absurd h (by simp)

/-! ### Concrete inputs used by the claims -/

/-- The scenario record of the specification. -/
def c1Record : RawRecord :=
  [("uuid".toList, .str "abc-1".toList),
   ("id".toList, .str "999".toList),
   ("updated_at".toList, .str "2020-01-01T00:00:00Z".toList),
   ("name".toList, .str "clip.mp4".toList)]

/-- The payload the scenario record must map to. -/
def c1Payload : payload :=
  { UUID := "abc-1".toList
    Identifiers :=
      [{ Authority := "http://api.ft.com/system/BRIGHTCOVE".toList
         IdentifierValue := "999".toList }]
    PublishedDate := "2020-01-01T00:00:00Z".toList
    MediaType := "video/mp4".toList
    PublishReference := "req-1".toList
    LastModified := "ts-1".toList }

/-- The publication event the scenario record must map to. -/
def c1Event : publicationEvent :=
  { ContentUri :=
      "http://video-mapper-iw-uk-p.svc.ft.com/video/model/abc-1".toList
    Payload := marshalPayload c1Payload
    LastModified := "ts-1".toList }

/-- A record whose name has a path separator after its last dot. -/
def c5Record : RawRecord :=
  [("uuid".toList, .str "u-5".toList),
   ("id".toList, .str "5".toList),
   ("updated_at".toList, .str "2020-05-05T00:00:00Z".toList),
   ("name".toList, .str "a.b/c".toList)]

/-- A valid record with a regular file extension. -/
def c5wRecord : RawRecord :=
  [("uuid".toList, .str "u-5w".toList),
   ("id".toList, .str "55".toList),
   ("updated_at".toList, .str "2020-05-05T00:00:00Z".toList),
   ("name".toList, .str "clip.mp4".toList)]

/-- A valid record used to witness the round-trip claim. -/
def c6Record : RawRecord :=
  [("uuid".toList, .str "u-6".toList),
   ("id".toList, .str "6".toList),
   ("updated_at".toList, .str "2020-06-06T00:00:00Z".toList),
   ("name".toList, .str "f.webm".toList)]

/-- The event `c6Record` maps to. -/
def c6Event : publicationEvent :=
  { ContentUri := videoContentUriBase ++ "u-6".toList
    Payload :=
      marshalPayload
        { UUID := "u-6".toList
          Identifiers :=
            [{ Authority := brigthcoveAuthority
               IdentifierValue := "6".toList }]
          PublishedDate := "2020-06-06T00:00:00Z".toList
          MediaType := "video/webm".toList
          PublishReference := "req-6".toList
          LastModified := "ts-6".toList }
    LastModified := "ts-6".toList }

/-- A valid record carried by a well-formed Brightcove broker message. -/
def c8Record : RawRecord :=
  [("uuid".toList, .str "u-8".toList),
   ("id".toList, .str "8".toList),
   ("updated_at".toList, .str "2020-08-08T00:00:00Z".toList),
   ("name".toList, .str "v.mov".toList)]

/-- The event `c8Record` maps to. -/
def c8Event : publicationEvent :=
  { ContentUri := videoContentUriBase ++ "u-8".toList
    Payload :=
      marshalPayload
        { UUID := "u-8".toList
          Identifiers :=
            [{ Authority := brigthcoveAuthority
               IdentifierValue := "8".toList }]
          PublishedDate := "2020-08-08T00:00:00Z".toList
          MediaType := "video/mov".toList
          PublishReference := "tid_8".toList
          LastModified := "ts-8".toList }
    LastModified := "ts-8".toList }

/-- A broker message from the Brightcove origin, with both required
headers and a valid body. -/
def c8Message : ConsumerMessage :=
  { Headers :=
      [("Origin-System-Id".toList,
        "http://cmdb.ft.com/systems/brightcove".toList),
       ("X-Request-Id".toList, "tid_8".toList),
       ("Message-Timestamp".toList, "ts-8".toList)]
    Body := some c8Record }

/-- A valid record posted to /map. -/
def c9Record : RawRecord :=
  [("uuid".toList, .str "u-9".toList),
   ("id".toList, .str "9".toList),
   ("updated_at".toList, .str "2020-09-09T00:00:00Z".toList),
   ("name".toList, .str "c.mp4".toList)]

/-- The event `c9Record` maps to. -/
def c9Event : publicationEvent :=
  { ContentUri := videoContentUriBase ++ "u-9".toList
    Payload :=
      marshalPayload
        { UUID := "u-9".toList
          Identifiers :=
            [{ Authority := brigthcoveAuthority
               IdentifierValue := "9".toList }]
          PublishedDate := "2020-09-09T00:00:00Z".toList
          MediaType := "video/mp4".toList
          PublishReference := "req-9".toList
          LastModified := "ts-9".toList }
    LastModified := "ts-9".toList }

/-- Two records with the same field values, listed in different orders and
with an extra, ignored key in the second. -/
def c10Record1 : RawRecord :=
  [("uuid".toList, .str "u-10".toList),
   ("id".toList, .str "10".toList),
   ("updated_at".toList, .str "2020-10-10T00:00:00Z".toList),
   ("name".toList, .str "x.avi".toList)]

/-- Reordering of `c10Record1` with an extra key. -/
def c10Record2 : RawRecord :=
  [("name".toList, .str "x.avi".toList),
   ("extra".toList, .num 7),
   ("updated_at".toList, .str "2020-10-10T00:00:00Z".toList),
   ("id".toList, .str "10".toList),
   ("uuid".toList, .str "u-10".toList)]

/-! ### The claims -/

/-- C1: on the record with uuid `abc-1`, id `999`, updated_at
`2020-01-01T00:00:00Z` and name `clip.mp4`, with publish reference `req-1`
and timestamp `ts-1`, the mapper succeeds; the event's contentUri is the
fixed base followed by `abc-1`, its lastModified is `ts-1`, and its payload
string decodes to exactly the expected canonical Payload (Brightcove
authority, identifier value `999`, mediaType `video/mp4`). -/
theorem claim1_scenario :
    mapBrightcoveVideoEvent c1Record "req-1".toList "ts-1".toList =
      .ok c1Event ∧
    mapBrightcoveVideo c1Record "req-1".toList "ts-1".toList =
      .ok (marshalEvent c1Event) ∧
    decodeCanonicalPayload c1Event.Payload = some c1Payload :=
  ⟨rfl, rfl, rfl⟩

/-- C2: a record in which `uuid` is absent makes the mapper panic (the
unchecked `.(string)` assertion on a nil interface value), instead of
returning the claimed validation error; an empty-string `uuid` is indeed
rejected with the uuid-specific error and no output. -/
theorem claim2_absent_uuid_panics :
    mapBrightcoveVideoEvent
        [("id".toList, .str "999".toList),
         ("updated_at".toList, .str "2020-01-01T00:00:00Z".toList),
         ("name".toList, .str "clip.mp4".toList)]
        "req-1".toList "ts-1".toList = .panicked ∧
    mapBrightcoveVideoEvent
        [("uuid".toList, .str []),
         ("id".toList, .str "999".toList),
         ("updated_at".toList, .str "2020-01-01T00:00:00Z".toList),
         ("name".toList, .str "clip.mp4".toList)]
        "req-1".toList "ts-1".toList = .errorMsg uuidNullMsg :=
  ⟨rfl, rfl⟩

/-- C3: a record in which `uuid`, `id` or `updated_at` is present but
bound to a non-string value makes the mapper panic (unchecked type
assertion), instead of failing with the claimed validation error. -/
theorem claim3_nonstring_field_panics :
    mapBrightcoveVideoEvent
        [("uuid".toList, .num 999),
         ("id".toList, .str "999".toList),
         ("updated_at".toList, .str "2020-01-01T00:00:00Z".toList),
         ("name".toList, .str "clip.mp4".toList)]
        "req-1".toList "ts-1".toList = .panicked ∧
    mapBrightcoveVideoEvent
        [("uuid".toList, .str "abc-1".toList),
         ("id".toList, .num 999),
         ("updated_at".toList, .str "2020-01-01T00:00:00Z".toList),
         ("name".toList, .str "clip.mp4".toList)]
        "req-1".toList "ts-1".toList = .panicked ∧
    mapBrightcoveVideoEvent
        [("uuid".toList, .str "abc-1".toList),
         ("id".toList, .str "999".toList),
         ("updated_at".toList, .null),
         ("name".toList, .str "clip.mp4".toList)]
        "req-1".toList "ts-1".toList = .panicked :=
  ⟨rfl, rfl, rfl⟩

/-- C4: a record whose `name` key is absent makes the mapper panic
(unchecked type assertion on the nil interface value), instead of the
claimed graceful success; a `name` bound to the empty string does succeed
with mediaType equal to the bare prefix `video/`. -/
theorem claim4_absent_name_panics_empty_name_succeeds :
    mapBrightcoveVideoEvent
        [("uuid".toList, .str "u-4".toList),
         ("id".toList, .str "4".toList),
         ("updated_at".toList, .str "2020-04-04T00:00:00Z".toList)]
        "req-4".toList "ts-4".toList = .panicked ∧
    mapBrightcoveVideoEvent
        [("uuid".toList, .str "u-4".toList),
         ("id".toList, .str "4".toList),
         ("updated_at".toList, .str "2020-04-04T00:00:00Z".toList),
         ("name".toList, .str [])]
        "req-4".toList "ts-4".toList =
      .ok
        { ContentUri := videoContentUriBase ++ "u-4".toList
          Payload :=
            marshalPayload
              { UUID := "u-4".toList
                Identifiers :=
                  [{ Authority := brigthcoveAuthority
                     IdentifierValue := "4".toList }]
                PublishedDate := "2020-04-04T00:00:00Z".toList
                MediaType := "video/".toList
                PublishReference := "req-4".toList
                LastModified := "ts-4".toList }
          LastModified := "ts-4".toList } :=
  ⟨rfl, rfl⟩

/-- C5 counterexample: for the name `a.b/c` the substring after the last
dot is `b/c`, but `filepath.Ext` stops at the path separator, so the
produced mediaType is the bare `video/`, not `video/` concatenated with
`b/c` as the claim predicts. -/
theorem claim5_counterexample :
    mapBrightcoveVideoEvent c5Record "req-5".toList "ts-5".toList =
      .ok
        { ContentUri := videoContentUriBase ++ "u-5".toList
          Payload :=
            marshalPayload
              { UUID := "u-5".toList
                Identifiers :=
                  [{ Authority := brigthcoveAuthority
                     IdentifierValue := "5".toList }]
                PublishedDate := "2020-05-05T00:00:00Z".toList
                MediaType := "video/".toList
                PublishReference := "req-5".toList
                LastModified := "ts-5".toList }
          LastModified := "ts-5".toList } ∧
    ("video/".toList : Str) ≠ viodeMediaTypeBase ++ "b/c".toList :=
  ⟨rfl, by decide⟩

/-- C5 (amended): for every valid record whose name contains a dot with no
path separator after the last dot, the mapping succeeds and the payload's
mediaType is `video/` concatenated with the extension (the substring after
the last dot), with no leading dot and no case normalization. -/
theorem claim5_extension_media_type (record : RawRecord)
    (publishReference lastModified uuid id publishedDate pre ext : Str)
    (hu : lookupKey record "uuid".toList = some (.str uuid)) (hu0 : uuid ≠ [])
    (hi : lookupKey record "id".toList = some (.str id)) (hi0 : id ≠ [])
    (hd : lookupKey record "updated_at".toList = some (.str publishedDate))
    (hd0 : publishedDate ≠ [])
    (hn : lookupKey record "name".toList = some (.str (pre ++ '.' :: ext)))
    (hdot : '.' ∉ ext) (hsep : '/' ∉ ext) :
    mapBrightcoveVideoEvent record publishReference lastModified =
      .ok
        { ContentUri := videoContentUriBase ++ uuid
          Payload :=
            marshalPayload
              { UUID := uuid
                Identifiers :=
                  [{ Authority := brigthcoveAuthority
                     IdentifierValue := id }]
                PublishedDate := publishedDate
                MediaType := viodeMediaTypeBase ++ ext
                PublishReference := publishReference
                LastModified := lastModified }
          LastModified := lastModified } := by
  rw [mapBrightcoveVideoEvent_ok record publishReference lastModified uuid id
    publishedDate (pre ++ '.' :: ext) hu hu0 hi hi0 hd hd0 hn]
  rw [goFilepathExt_of_extension pre ext hdot hsep, goTrimLeadingDot_dot]

/-- C5 witness: the amended claim applied to a concrete record with name
`clip.mp4`. -/
theorem claim5_extension_media_type_witness :
    mapBrightcoveVideoEvent c5wRecord "req-5".toList "ts-5".toList =
      .ok
        { ContentUri := videoContentUriBase ++ "u-5w".toList
          Payload :=
            marshalPayload
              { UUID := "u-5w".toList
                Identifiers :=
                  [{ Authority := brigthcoveAuthority
                     IdentifierValue := "55".toList }]
                PublishedDate := "2020-05-05T00:00:00Z".toList
                MediaType := viodeMediaTypeBase ++ "mp4".toList
                PublishReference := "req-5".toList
                LastModified := "ts-5".toList }
          LastModified := "ts-5".toList } :=
  claim5_extension_media_type c5wRecord "req-5".toList "ts-5".toList
    "u-5w".toList "55".toList "2020-05-05T00:00:00Z".toList
    "clip".toList "mp4".toList rfl (by decide) rfl (by decide) rfl
    (by decide) rfl (by decide) (by decide)

/-- C6: whenever the mapper succeeds, decoding the payload string embedded
in the produced event yields a Payload whose uuid equals the string
obtained by stripping the fixed base URI from the event's contentUri. -/
theorem claim6_roundtrip (record : RawRecord)
    (publishReference lastModified : Str) (ev : publicationEvent)
    (h : mapBrightcoveVideoEvent record publishReference lastModified = .ok ev) :
    ∃ p : payload, decodeCanonicalPayload ev.Payload = some p ∧
      p.UUID = ev.ContentUri.drop videoContentUriBase.length := by
  obtain ⟨uuid, id, publishedDate, fileName, hu, hi, hd, hn, hev⟩ :=
    mapBrightcoveVideoEvent_ok_inv record publishReference lastModified ev h
  subst hev
  refine ⟨_, decodeCanonicalPayload_marshalPayload uuid brigthcoveAuthority id
    publishedDate _ publishReference lastModified, ?_⟩
  exact (List.drop_left videoContentUriBase uuid).symm

/-- C6 witness: the round-trip property at a concrete successful input. -/
theorem claim6_roundtrip_witness :
    ∃ p : payload, decodeCanonicalPayload c6Event.Payload = some p ∧
      p.UUID = c6Event.ContentUri.drop videoContentUriBase.length :=
  claim6_roundtrip c6Record "req-6".toList "ts-6".toList c6Event rfl

/-- C7: a broker message whose Origin-System-Id header differs from the
Brightcove origin is dropped: no outbound message, no mapping attempted. -/
theorem claim7_origin_filter (m : ConsumerMessage)
    (h : getHeader m.Headers "Origin-System-Id".toList ≠ brightcoveOrigin) :
    consume m = (.droppedOrigin, []) := by
  unfold consume
  rw [if_pos h]

/-- C7 witness: a message from a different origin is dropped. -/
theorem claim7_origin_filter_witness :
    consume
        { Headers :=
            [("Origin-System-Id".toList,
              "http://cmdb.ft.com/systems/methode-web-pub".toList)]
          Body := none } = (.droppedOrigin, []) :=
  claim7_origin_filter _ (by decide)

/-- C8: on a Brightcove-origin message with valid headers and body the
mapping succeeds, yet consume hands nothing to the outbound producer (the
send call is commented out in the source): the outbound message list is
empty. -/
theorem claim8_no_outbound_message :
    mapMessage c8Message = .ok (marshalEvent c8Event) ∧
    consume c8Message = (.processed (marshalEvent c8Event), []) :=
  ⟨rfl, rfl⟩

/-- C9: with both headers present, an undecodable body yields a 400 with
empty response and a valid body yields a 200 whose body is the serialized
event, and an empty-string uuid yields a 400; but a well-formed JSON
object missing the uuid key makes the handler panic instead of returning
the claimed 400. -/
theorem claim9_handler_outcomes :
    mapHandler
        { Body := none, XRequestId := "req-9".toList,
          MessageTimestamp := "ts-9".toList } = .badRequest ∧
    mapHandler
        { Body :=
            some
              [("uuid".toList, .str []),
               ("id".toList, .str "9".toList),
               ("updated_at".toList, .str "2020-09-09T00:00:00Z".toList),
               ("name".toList, .str "c.mp4".toList)]
          XRequestId := "req-9".toList
          MessageTimestamp := "ts-9".toList } = .badRequest ∧
    mapHandler
        { Body :=
            some
              [("id".toList, .str "9".toList),
               ("updated_at".toList, .str "2020-09-09T00:00:00Z".toList),
               ("name".toList, .str "c.mp4".toList)]
          XRequestId := "req-9".toList
          MessageTimestamp := "ts-9".toList } = .panicked ∧
    mapHandler
        { Body := some c9Record, XRequestId := "req-9".toList,
          MessageTimestamp := "ts-9".toList } =
      .success (marshalEvent c9Event) :=
  ⟨rfl, rfl, rfl, rfl⟩

/-- C10: the mapper is a pure function of the record's relevant fields,
the publish reference and the timestamp: two records on which the four
read keys agree map to byte-identical serialized events (or the same
error), for equal references and timestamps. -/
theorem claim10_determinism (r₁ r₂ : RawRecord)
    (publishReference lastModified : Str)
    (hu : lookupKey r₁ "uuid".toList = lookupKey r₂ "uuid".toList)
    (hi : lookupKey r₁ "id".toList = lookupKey r₂ "id".toList)
    (hd : lookupKey r₁ "updated_at".toList = lookupKey r₂ "updated_at".toList)
    (hn : lookupKey r₁ "name".toList = lookupKey r₂ "name".toList) :
    mapBrightcoveVideo r₁ publishReference lastModified =
      mapBrightcoveVideo r₂ publishReference lastModified := by
  unfold mapBrightcoveVideo mapBrightcoveVideoEvent
  rw [hu, hi, hd, hn]

/-- C10 witness: two reorderings of the same record, one with an extra
ignored key, produce identical serialized events. -/
theorem claim10_determinism_witness :
    mapBrightcoveVideo c10Record1 "req-10".toList "ts-10".toList =
      mapBrightcoveVideo c10Record2 "req-10".toList "ts-10".toList :=
  claim10_determinism c10Record1 c10Record2 "req-10".toList "ts-10".toList
    rfl rfl rfl rfl

end VideoMapper
